import Mathlib

/-!
Verification of the RoseScout MCP normalization/validation layer.

The TypeScript adapters (`epmc.ts`, `nih.ts`, the ORCID service, and the MCP
tool wiring) are shallowly embedded as Lean definitions: optional JS values
become `Option`, JS string truthiness (undefined and the empty string are
falsy) becomes `strTruthy`, fallible operations become `Except`, and the zod
schema validators become executable predicates on a `Json` value type.
-/

namespace RoseScout

/-! ### JavaScript value helpers -/

/-- Truthiness of an optional JS string: `undefined` and `""` are falsy. -/
def strTruthy : Option String → Bool
  | none => false
  | some s => s != ""

/-- JS `x || d` on an optional string: falls back to `d` when `x` is
`undefined` or the empty string. -/
def jsOrStr (x : Option String) (d : String) : String :=
  match x with
  | some s => if s != "" then s else d
  | none => d

/-- JS `x || d` on an optional number: falls back to `d` when `x` is
`undefined` or `0`. -/
def jsOrInt (x : Option Int) (d : Int) : Int :=
  match x with
  | some n => if n != 0 then n else d
  | none => d

/-- JS array indexing `arr[i]` with an `Int` index: a negative index (no such
property) yields `undefined`. -/
def jsIndex {α : Type} (l : List α) (i : Int) : Option α :=
  if i < 0 then none else l[i.toNat]?

/-- JS `String.prototype.toUpperCase` (character-wise uppercase). -/
def jsToUpperCase (s : String) : String :=
  String.mk (s.data.map Char.toUpper)

/-- JS `String.prototype.trim`: strip leading and trailing whitespace. -/
def jsTrim (s : String) : String :=
  String.mk (((s.data.dropWhile Char.isWhitespace).reverse.dropWhile
    Char.isWhitespace).reverse)

/-- Split a character list at every occurrence of `c` (JS
`String.prototype.split` semantics: `"".split` gives one empty segment,
separators at the ends give empty segments). -/
def splitChar (c : Char) : List Char → List (List Char)
  | [] => [[]]
  | x :: xs =>
    match splitChar c xs with
    | [] => [[]]
    | r :: rs => if x = c then [] :: r :: rs else (x :: r) :: rs

/-- JS `s.split(c)` (no limit argument). -/
def jsSplit (s : String) (c : Char) : List String :=
  (splitChar c s.data).map String.mk

/-- JS `s.split(c, limit)`: split fully, then keep the first `limit` segments. -/
def jsSplitLimit (s : String) (c : Char) (lim : Nat) : List String :=
  (jsSplit s c).take lim

/-! ### JSON values and the zod-style structural validator

`zod` schemas built from `z.object`, `z.string()`, `z.number()`, `z.boolean()`,
`z.array`, `z.union`, `.optional()` and `.nullable()` are embedded as boolean
validators over a `Json` value: `.optional()` permits a missing key,
`.nullable()` permits an explicit `null` value, and a present non-null value
must satisfy the base validator.  Unknown keys are ignored (zod strips them).
-/

inductive Json where
  | null
  | bool (b : Bool)
  | num (n : Int)
  | str (s : String)
  | arr (elems : List Json)
  | obj (fields : List (String × Json))
deriving Repr

def Json.isStr : Json → Bool
  | .str _ => true
  | _ => false

def Json.isNum : Json → Bool
  | .num _ => true
  | _ => false

def Json.isBool : Json → Bool
  | .bool _ => true
  | _ => false

/-- `z.array(v)`. -/
def zArray (v : Json → Bool) : Json → Bool
  | .arr xs => xs.all v
  | _ => false

/-- `z.union([a, b])`. -/
def zUnion2 (a b : Json → Bool) (j : Json) : Bool :=
  a j || b j

/-- One field of a `z.object` schema: the base validator plus the
`.optional()` / `.nullable()` modifiers. -/
structure FieldSpec where
  check : Json → Bool
  optionalKey : Bool
  nullableVal : Bool

/-- A plain required field. -/
def req (v : Json → Bool) : FieldSpec := ⟨v, false, false⟩

/-- `.optional()`. -/
def opt (v : Json → Bool) : FieldSpec := ⟨v, true, false⟩

/-- `.optional().nullable()`. -/
def optNul (v : Json → Bool) : FieldSpec := ⟨v, true, true⟩

def lookupField : List (String × Json) → String → Option Json
  | [], _ => none
  | (k, v) :: rest, key => if k = key then some v else lookupField rest key

def checkField (fields : List (String × Json)) (key : String) (fs : FieldSpec) :
    Bool :=
  match lookupField fields key with
  | none => fs.optionalKey
  | some .null => fs.nullableVal
  | some v => fs.check v

/-- `z.object(...)`: every declared field must check out; non-objects are
rejected. -/
def zObject (specs : List (String × FieldSpec)) : Json → Bool
  | .obj fields => specs.all (fun kv => checkField fields kv.1 kv.2)
  | _ => false

/-! ### Europe PMC data model (`epmc.ts`)

Typed shapes of a validated Europe PMC search response (the `z.infer` image of
`EpmcResponseSchema`): every schema field is `.optional()`, so every field is
an `Option`. -/

structure EpmcAuthorId where
  type : Option String
  value : Option String
deriving Repr, DecidableEq, Inhabited

structure EpmcAuthorAffiliation where
  affiliation : Option String
deriving Repr, DecidableEq, Inhabited

structure EpmcAffiliationDetailsList where
  authorAffiliation : Option (List EpmcAuthorAffiliation)
deriving Repr, DecidableEq, Inhabited

structure EpmcAuthor where
  fullName : Option String
  lastName : Option String
  firstName : Option String
  initials : Option String
  authorId : Option EpmcAuthorId
  collectiveName : Option String
  authorAffiliationDetailsList : Option EpmcAffiliationDetailsList
deriving Repr, DecidableEq, Inhabited

structure EpmcJournal where
  title : Option String
  medlineAbbreviation : Option String
  nlmid : Option String
  isoabbreviation : Option String
  issn : Option String
  essn : Option String
deriving Repr, DecidableEq, Inhabited

structure EpmcJournalInfo where
  issue : Option String
  volume : Option String
  journalIssueId : Option Int
  dateOfPublication : Option String
  monthOfPublication : Option Int
  yearOfPublication : Option Int
  printPublicationDate : Option String
  journal : Option EpmcJournal
deriving Repr, DecidableEq, Inhabited

structure EpmcGrant where
  grantId : Option String
  agency : Option String
  acronym : Option String
  orderIn : Option Int
deriving Repr, DecidableEq, Inhabited

structure EpmcMeshQualifier where
  abbreviation : Option String
  qualifierName : Option String
  majorTopic_YN : Option String
deriving Repr, DecidableEq, Inhabited

structure EpmcMeshQualifierList where
  meshQualifier : Option (List EpmcMeshQualifier)
deriving Repr, DecidableEq, Inhabited

structure EpmcMeshHeading where
  majorTopic_YN : Option String
  descriptorName : Option String
  meshQualifierList : Option EpmcMeshQualifierList
deriving Repr, DecidableEq, Inhabited

structure EpmcFullTextUrl where
  availability : Option String
  availabilityCode : Option String
  documentStyle : Option String
  site : Option String
  url : Option String
deriving Repr, DecidableEq, Inhabited

structure EpmcAuthorList where
  author : Option (List EpmcAuthor)
deriving Repr, DecidableEq, Inhabited

structure EpmcAuthorIdList where
  authorId : Option (List EpmcAuthorId)
deriving Repr, DecidableEq, Inhabited

structure EpmcPubTypeList where
  pubType : Option (List String)
deriving Repr, DecidableEq, Inhabited

structure EpmcKeywordList where
  keyword : Option (List String)
deriving Repr, DecidableEq, Inhabited

structure EpmcGrantsList where
  grant : Option (List EpmcGrant)
deriving Repr, DecidableEq, Inhabited

structure EpmcMeshHeadingList where
  meshHeading : Option (List EpmcMeshHeading)
deriving Repr, DecidableEq, Inhabited

structure EpmcFullTextUrlList where
  fullTextUrl : Option (List EpmcFullTextUrl)
deriving Repr, DecidableEq, Inhabited

structure EpmcResult where
  id : Option String
  source : Option String
  pmid : Option String
  pmcid : Option String
  doi : Option String
  title : Option String
  authorString : Option String
  authorList : Option EpmcAuthorList
  authorIdList : Option EpmcAuthorIdList
  journalInfo : Option EpmcJournalInfo
  pubYear : Option String
  pageInfo : Option String
  abstractText : Option String
  affiliation : Option String
  language : Option String
  pubTypeList : Option EpmcPubTypeList
  keywordList : Option EpmcKeywordList
  grantsList : Option EpmcGrantsList
  meshHeadingList : Option EpmcMeshHeadingList
  fullTextUrlList : Option EpmcFullTextUrlList
  isOpenAccess : Option String
  citedByCount : Option Int
  hasReferences : Option String
  hasTextMinedTerms : Option String
  firstPublicationDate : Option String
deriving Repr, DecidableEq, Inhabited

structure EpmcResultList where
  result : Option (List EpmcResult)
deriving Repr, DecidableEq, Inhabited

structure EpmcResponse where
  version : Option String
  hitCount : Option Int
  resultList : Option EpmcResultList
deriving Repr, DecidableEq, Inhabited

/-! Simplified publication record for MCP output (`PublicationRecord`,
`Author`, `Grant` in `epmc.ts`). -/

structure Author where
  fullName : Option String
  firstName : Option String
  lastName : Option String
  initials : Option String
  orcid : Option String
  affiliations : List String
deriving Repr, DecidableEq, Inhabited

structure Grant where
  grantId : Option String
  agency : Option String
  acronym : Option String
deriving Repr, DecidableEq, Inhabited

structure PublicationRecord where
  title : String
  abstract : Option String
  doi : Option String
  pmid : Option String
  pmcid : Option String
  publicationDate : Option String
  journalName : Option String
  journalIssn : Option String
  authors : List Author
  source : String
  fullTextUrl : Option String
  citationCount : Option Int
  keywords : List String
  subjects : List String
  grants : List Grant
  isOpenAccess : Bool
deriving Repr, DecidableEq, Inhabited

/-- Author-conversion loop body of `convertEpmcResponseToPublications`:
authors without a truthy `fullName` are skipped (`continue`); an affiliation is
kept only when truthy; the `orcid` field is set only when
`authorId?.type?.toUpperCase() === "ORCID"` and `authorId.value` is truthy. -/
def convertEpmcAuthor (a : EpmcAuthor) : Option Author :=
  if strTruthy a.fullName then
    let affiliations :=
      match a.authorAffiliationDetailsList.bind
          EpmcAffiliationDetailsList.authorAffiliation with
      | some ds =>
        ds.filterMap (fun d =>
          if strTruthy d.affiliation then d.affiliation else none)
      | none => []
    let aidType := a.authorId.bind EpmcAuthorId.type
    let aidValue := a.authorId.bind EpmcAuthorId.value
    let orcid :=
      if aidType.map jsToUpperCase == some "ORCID" && strTruthy aidValue then
        aidValue
      else none
    some { fullName := a.fullName, firstName := a.firstName,
           lastName := a.lastName, initials := a.initials, orcid := orcid,
           affiliations := affiliations }
  else none

/-- MeSH-heading loop body: headings without a truthy `descriptorName` are
skipped; a `majorTopic_YN === 'Y'` marker prefixes `*`; each truthy qualifier
name is appended as `/qualifier` in source order. -/
def meshSubject (m : EpmcMeshHeading) : Option String :=
  if strTruthy m.descriptorName then
    let base := m.descriptorName.getD ""
    let starred := if m.majorTopic_YN == some "Y" then "*" ++ base else base
    let quals :=
      match m.meshQualifierList.bind EpmcMeshQualifierList.meshQualifier with
      | some qs =>
        qs.filterMap (fun (q : EpmcMeshQualifier) =>
          if strTruthy q.qualifierName then q.qualifierName else none)
      | none => []
    some (quals.foldl (fun acc q => acc ++ "/" ++ q) starred)
  else none

/-- The `PublicationRecord` literal built at the end of the result loop of
`convertEpmcResponseToPublications` (only reached after the title/abstract
guard). -/
def mkEpmcPublication (r : EpmcResult) : PublicationRecord :=
  { title := r.title.getD "",
    abstract := r.abstractText,
    doi := r.doi,
    pmid := r.pmid,
    pmcid := r.pmcid,
    publicationDate := r.firstPublicationDate,
    journalName := (r.journalInfo.bind EpmcJournalInfo.journal).bind
      EpmcJournal.title,
    journalIssn := (r.journalInfo.bind EpmcJournalInfo.journal).bind
      EpmcJournal.issn,
    authors :=
      match r.authorList.bind EpmcAuthorList.author with
      | some as => as.filterMap convertEpmcAuthor
      | none => [],
    source := "Europe PMC",
    fullTextUrl :=
      match r.fullTextUrlList.bind EpmcFullTextUrlList.fullTextUrl with
      | some us => (us.find? (fun u => strTruthy u.url)).bind EpmcFullTextUrl.url
      | none => none,
    citationCount := r.citedByCount,
    keywords := (r.keywordList.bind EpmcKeywordList.keyword).getD [],
    subjects :=
      match r.meshHeadingList.bind EpmcMeshHeadingList.meshHeading with
      | some ms => ms.filterMap meshSubject
      | none => [],
    grants :=
      match r.grantsList.bind EpmcGrantsList.grant with
      | some gs =>
        gs.filterMap (fun g =>
          if strTruthy g.grantId then
            some { grantId := g.grantId, agency := g.agency,
                   acronym := g.acronym }
          else none)
      | none => [],
    isOpenAccess := r.isOpenAccess == some "Y" }

/-- Result-loop body: `if (!result.title || !result.abstractText) continue`. -/
def convertEpmcResult (r : EpmcResult) : Option PublicationRecord :=
  if strTruthy r.title && strTruthy r.abstractText then
    some (mkEpmcPublication r)
  else none

/-- The result array of a response (`epmcResponse.resultList?.result`, with
the early `return []` when it is absent). -/
def epmcResults (resp : EpmcResponse) : List EpmcResult :=
  (resp.resultList.bind EpmcResultList.result).getD []

/-- `convertEpmcResponseToPublications` from `epmc.ts`. -/
def convertEpmcResponseToPublications (resp : EpmcResponse) :
    List PublicationRecord :=
  match resp.resultList.bind EpmcResultList.result with
  | none => []
  | some results => results.filterMap convertEpmcResult

/-! ### NIH RePORTER data model (`nih.ts`)

Typed shapes of a validated NIH project (the `z.infer` image of
`NIHProjectSchema`).  A field declared `.optional().nullable()` can be
missing, `null`, or a value: it is embedded as `Option (Option _)` with
`none` = missing and `some none` = null. -/

structure NIHPrincipalInvestigator where
  profile_id : Option Int
  first_name : Option String
  middle_name : Option String
  last_name : Option String
  full_name : Option String
  title : Option String
  email : Option String
  phone : Option String
  is_contact_pi : Option Bool
deriving Repr, DecidableEq, Inhabited

structure NIHOrganization where
  org_name : Option String
  org_city : Option String
  org_state : Option String
  org_country : Option String
  org_zipcode : Option String
  org_duns : Option (String ⊕ List String)
  org_fips : Option String
  dept_type : Option (Option String)
  org_department : Option String
deriving Repr, DecidableEq, Inhabited

structure NIHAgency where
  code : Option String
  name : Option String
  abbreviation : Option String
deriving Repr, DecidableEq, Inhabited

structure NIHProjectNumSplit where
  appl_type_code : Option String
  activity_code : Option String
  ic_code : Option String
  serial_num : Option String
  support_year : Option String
deriving Repr, DecidableEq, Inhabited

structure NIHSpendingCat where
  code : Option String
  name : Option String
deriving Repr, DecidableEq, Inhabited

structure NIHStudySection where
  srgCode : Option String
  srgFlex : Option String
  srgName : Option String
deriving Repr, DecidableEq, Inhabited

structure NIHProject where
  appl_id : Option Int
  project_num : String
  project_serial_num : Option String
  project_title : Option String
  project_start_date : Option String
  project_end_date : Option String
  budget_start : Option String
  budget_end : Option String
  fiscal_year : Option Int
  award_amount : Option (Option Int)
  award_notice_date : Option String
  is_active : Option Bool
  project_num_split : Option NIHProjectNumSplit
  principal_investigators : Option (List NIHPrincipalInvestigator)
  contact_pi_name : Option String
  other_pi_names : Option (List String)
  organization : Option NIHOrganization
  agency_ic_admin : Option NIHAgency
  agency_ic_fundings : Option (Option (List NIHAgency))
  cong_dist : Option String
  project_terms : Option String
  pref_terms : Option (Option String)
  abstract_text : Option String
  phr_text : Option (Option String)
  spending_cats : Option (List NIHSpendingCat)
  covid_response : Option (Option (List String))
  arra_funded : Option String
  is_new : Option Bool
  mechanism_code_dc : Option String
  core_project_num : Option String
  full_study_section : Option NIHStudySection
  subproject_id : Option (Option (Int ⊕ String))
  total_cost : Option Int
  total_cost_sub_project : Option Int
deriving Repr, DecidableEq, Inhabited

/-! `GrantRecord` output shape of `nih.ts`.  `funder` and `award_type` are
always assigned (with `|| 'NIH'` / `|| 'research'` fallbacks), so they are
plain strings here. -/

structure GrantPI where
  given_name : Option String
  family_name : Option String
  credit_name : Option String
deriving Repr, DecidableEq, Inhabited

structure GrantRecord where
  id : String
  title : Option String
  funder : String
  year : Option Int
  amount : Option Int
  currency : String
  start_date : Option String
  end_date : Option String
  recipient : Option String
  principal_investigators : List GrantPI
  abstract : Option String
  keywords : List String
  description : Option String
  is_active : Option Bool
  award_type : String
deriving Repr, DecidableEq, Inhabited

/-- `amount: project.award_amount || undefined`: missing, `null` and `0` all
collapse to `undefined`. -/
def jsNumOrUndef : Option (Option Int) → Option Int
  | some (some n) => if n != 0 then some n else none
  | _ => none

/-- The contact-PI-name fallback branch of
`convertNIHProjectToGrantRecord`: `contact_pi_name.split(',', 2)`; a
two-part split yields `(family, given)` trimmed, otherwise the whole string
becomes the family name. -/
def contactPIEntries (nm : String) : List GrantPI :=
  let nameParts := jsSplitLimit nm ',' 2
  if nameParts.length = 2 then
    [{ given_name := some (jsTrim (nameParts.getD 1 "")),
       family_name := some (jsTrim (nameParts.getD 0 "")),
       credit_name := some nm }]
  else
    [{ given_name := some "", family_name := some nm,
       credit_name := some nm }]

/-- The `principal_investigators` local of `convertNIHProjectToGrantRecord`:
a present structured list (truthy even when empty) is mapped directly;
otherwise a truthy `contact_pi_name` is split with `split(',', 2)`. -/
def nihPrincipalInvestigators (project : NIHProject) : List GrantPI :=
  match project.principal_investigators with
  | some pis =>
    pis.map (fun pi =>
      { given_name := pi.first_name, family_name := pi.last_name,
        credit_name := pi.full_name })
  | none =>
    match project.contact_pi_name with
    | some nm => if nm != "" then contactPIEntries nm else []
    | none => []

/-- The `recipientParts` local: `org_name`, `org_department`, `org_country`,
each pushed only when truthy. -/
def nihRecipientParts (project : NIHProject) : List String :=
  let org := project.organization
  (if strTruthy (org.bind NIHOrganization.org_name) then
    [(org.bind NIHOrganization.org_name).getD ""] else []) ++
  (if strTruthy (org.bind NIHOrganization.org_department) then
    [(org.bind NIHOrganization.org_department).getD ""] else []) ++
  (if strTruthy (org.bind NIHOrganization.org_country) then
    [(org.bind NIHOrganization.org_country).getD ""] else [])

/-- The `keywords` local: a truthy `pref_terms` is split on `';'`, trimmed,
and empty segments dropped. -/
def nihKeywords (project : NIHProject) : List String :=
  match project.pref_terms with
  | some (some s) =>
    if s != "" then ((jsSplit s ';').map jsTrim).filter (fun t => t != "")
    else []
  | _ => []

/-- `convertNIHProjectToGrantRecord` from `nih.ts`. -/
def convertNIHProjectToGrantRecord (project : NIHProject) : GrantRecord :=
  { id := project.project_num,
    title := project.project_title,
    funder := jsOrStr (project.agency_ic_admin.bind NIHAgency.name) "NIH",
    year := project.fiscal_year,
    amount := jsNumOrUndef project.award_amount,
    currency := "USD",
    start_date := project.project_start_date,
    end_date := project.project_end_date,
    recipient :=
      (fun s => if s != "" then some s else none)
        (String.intercalate ", " (nihRecipientParts project)),
    principal_investigators := nihPrincipalInvestigators project,
    abstract := project.abstract_text,
    keywords := nihKeywords project,
    description :=
      match project.phr_text with
      | some (some s) =>
        if s != "" then some ("### Public Health Relevance: \n" ++ s)
        else none
      | _ => none,
    is_active := project.is_active,
    award_type := jsOrStr project.mechanism_code_dc "research" }

/-! ### ORCID data model (the ORCID service module)

Parsed ORCID shapes (`OrcidProfile`, `OrcidWorks`, `OrcidAffiliation`, …).
Raw ORCID date objects (`{year: {value}, month: {value}, day: {value}}`) are
embedded as `OrcidDateRaw`; `new Date(year, month - 1, day)` is embedded as a
`JsDate` triple holding the constructor arguments. -/

structure OrcidDateValue where
  value : Option Int
deriving Repr, DecidableEq, Inhabited

structure OrcidDateRaw where
  year : Option OrcidDateValue
  month : Option OrcidDateValue
  day : Option OrcidDateValue
deriving Repr, DecidableEq, Inhabited

structure JsDate where
  year : Int
  monthIndex : Int
  day : Int
deriving Repr, DecidableEq, Inhabited

structure OrcidName where
  givenNames : Option String
  familyName : Option String
  creditName : Option String
deriving Repr, DecidableEq, Inhabited

structure OrcidEmail where
  email : String
  verified : Bool
  primary : Bool
deriving Repr, DecidableEq, Inhabited

structure OrcidExternalId where
  name : String
  value : Option String
  url : Option String
  source : Option String
deriving Repr, DecidableEq, Inhabited

structure OrcidUrl where
  name : Option String
  url : String
deriving Repr, DecidableEq, Inhabited

structure OrcidKeyword where
  content : String
  source : Option String
deriving Repr, DecidableEq, Inhabited

structure OrcidOtherName where
  content : String
  source : Option String
deriving Repr, DecidableEq, Inhabited

structure OrcidOrganizationAddress where
  city : Option String
  region : Option String
  country : Option String
deriving Repr, DecidableEq, Inhabited

structure OrcidOrganization where
  name : String
  address : Option OrcidOrganizationAddress
  disambiguationSource : Option String
deriving Repr, DecidableEq, Inhabited

structure OrcidAffiliation where
  organization : OrcidOrganization
  departmentName : Option String
  roleTitle : Option String
  startDate : Option OrcidDateRaw
  endDate : Option OrcidDateRaw
  sourceName : Option String
deriving Repr, DecidableEq, Inhabited

structure OrcidWorkSummary where
  title : Option String
  type : Option String
  publicationDate : Option OrcidDateRaw
  journalTitle : Option String
  url : Option String
  source : Option String
deriving Repr, DecidableEq, Inhabited

structure OrcidWorkExternalId where
  name : String
  value : Option String
  url : Option String
  source : Option String
deriving Repr, DecidableEq, Inhabited

structure OrcidWork where
  workSummaries : List OrcidWorkSummary
  externalIds : List OrcidWorkExternalId
deriving Repr, DecidableEq, Inhabited

structure OrcidWorks where
  works : List OrcidWork
deriving Repr, DecidableEq, Inhabited

structure OrcidProfile where
  name : OrcidName
  biography : Option String
  keywords : List OrcidKeyword
  otherNames : List OrcidOtherName
  emails : List OrcidEmail
  externalIds : List OrcidExternalId
  researcherUrls : List OrcidUrl
  lastModified : Option Int
deriving Repr, DecidableEq, Inhabited

/-! `CustomerProfile` output shape. -/

structure ProfileEmail where
  address : String
  primary : Bool
deriving Repr, DecidableEq, Inhabited

structure ProfileSection where
  title : String
  content : String
deriving Repr, DecidableEq, Inhabited

structure ProfileExternalRef where
  url : Option String
  name : Option String
  source : Option String
deriving Repr, DecidableEq, Inhabited

structure ProfilePublication where
  title : Option String
  publicationDate : Option JsDate
  journalName : Option String
  source : Option String
  doi : Option String
deriving Repr, DecidableEq, Inhabited

structure ResearcherId where
  orcid : Option String
  givenName : Option String
  familyName : Option String
  creditName : Option String
  emails : List ProfileEmail
deriving Repr, DecidableEq, Inhabited

structure ProfileDescription where
  sections : List ProfileSection
deriving Repr, DecidableEq, Inhabited

structure CustomerProfile where
  researcherId : ResearcherId
  description : ProfileDescription
  externalReferences : List ProfileExternalRef
  educations : List OrcidAffiliation
  employments : List OrcidAffiliation
  publications : List ProfilePublication
deriving Repr, DecidableEq, Inhabited

/-- `parseDate` from the ORCID service: `year?.value` is required and truthy
(`0` is falsy), `month?.value || 1` and `day?.value || 1` default to 1, and
the result records the `new Date(year, month - 1, day)` arguments. -/
def parseDate (dateObj : Option OrcidDateRaw) : Option JsDate :=
  match dateObj with
  | none => none
  | some dt =>
    let year := dt.year.bind OrcidDateValue.value
    let month := jsOrInt (dt.month.bind OrcidDateValue.value) 1
    let day := jsOrInt (dt.day.bind OrcidDateValue.value) 1
    match year with
    | some y => if y != 0 then some { year := y, monthIndex := month - 1, day := day } else none
    | none => none

/-- The email comparator passed to `Array.prototype.sort` in
`createCustomerProfile`: primary first, then verified first, ties compare
equal. -/
def emailCmp (a b : OrcidEmail) : Int :=
  if a.primary && !b.primary then -1
  else if !a.primary && b.primary then 1
  else if a.verified && !b.verified then -1
  else if !a.verified && b.verified then 1
  else 0

/-- The (total, transitive) preorder induced by `emailCmp`. -/
def emailLe (a b : OrcidEmail) : Prop := emailCmp a b ≤ 0

instance : DecidableRel emailLe :=
  fun a b => inferInstanceAs (Decidable (emailCmp a b ≤ 0))

/-- `[...orcidProfile.emails].sort(cmp)`.  `Array.prototype.sort` is required
to be stable by the ECMAScript specification, so it is embedded as the stable
insertion sort with the non-strict order induced by the comparator. -/
def sortEmails (emails : List OrcidEmail) : List OrcidEmail :=
  List.insertionSort emailLe emails

/-- The per-work-group publication entry of `createCustomerProfile`
(fields computed before the `if (title)` guard): first truthy title, first
truthy (present) publication date, first truthy journal title, all truthy
sources, and the value of the external id named `"doi"`. -/
def workGroupEntry (work : OrcidWork) : ProfilePublication :=
  let summaries := work.workSummaries
  let title := (summaries.find? (fun s => strTruthy s.title)).bind
    OrcidWorkSummary.title
  let pubDate := (summaries.find? (fun s => s.publicationDate.isSome)).bind
    OrcidWorkSummary.publicationDate
  let journal := (summaries.find? (fun s => strTruthy s.journalTitle)).bind
    OrcidWorkSummary.journalTitle
  let sources := (summaries.filter (fun s => strTruthy s.source)).map
    (fun s => s.source.getD "")
  let doi := (work.externalIds.find? (fun eid => eid.name == "doi")).bind
    OrcidWorkExternalId.value
  { title := title,
    publicationDate := parseDate pubDate,
    journalName := journal,
    source :=
      if sources.length > 0 then some (String.intercalate ", " sources)
      else none,
    doi := doi }

/-- Work-group loop body: the entry is pushed only under `if (title)`. -/
def workGroupPublication (work : OrcidWork) : Option ProfilePublication :=
  if strTruthy ((work.workSummaries.find? (fun s => strTruthy s.title)).bind
      OrcidWorkSummary.title) then
    some (workGroupEntry work)
  else none

/-- `createCustomerProfile` from the ORCID service. -/
def createCustomerProfile (orcidProfile : OrcidProfile) (orcidId : String)
    (educations employments : List OrcidAffiliation) (works : OrcidWorks) :
    CustomerProfile :=
  let sortedEmails := sortEmails orcidProfile.emails
  let sections : List ProfileSection :=
    (match orcidProfile.biography with
     | some b =>
       if b != "" then [{ title := "ORCID Profile Biography", content := b }]
       else []
     | none => []) ++
    (if orcidProfile.keywords.length > 0 then
      [{ title := "ORCID Profile Keywords",
         content := String.intercalate ", "
           (orcidProfile.keywords.map OrcidKeyword.content) }]
     else [])
  let extRefs : List ProfileExternalRef :=
    orcidProfile.externalIds.map (fun e =>
      { url := e.url, name := some e.name, source := e.source }) ++
    orcidProfile.researcherUrls.map (fun u =>
      { url := some u.url, name := u.name, source := some "ORCID Profile" })
  { researcherId :=
      { orcid := some orcidId,
        givenName := orcidProfile.name.givenNames,
        familyName := orcidProfile.name.familyName,
        creditName := orcidProfile.name.creditName,
        emails := sortedEmails.map (fun e =>
          { address := e.email, primary := e.primary }) },
    description := { sections := sections },
    externalReferences := extRefs,
    educations := educations,
    employments := employments,
    publications := works.works.filterMap workGroupPublication }

/-! ### ORCID aggregation and the error taxonomy (`getOrcidProfile`)

The four sub-resource fetches (`person`, `works`, `educations`,
`employments`) are opaque network calls; each is embedded as an `Except`
value.  `fetchOrcidData` classifies its own failures, so a fetch result
carries an already-typed `OrcidError`; the `unclassified` constructor models
any other exception reaching the outer `catch`. -/

inductive OrcidError where
  | notFound (message : String)
  | apiError (message : String)
  | validationError (message : String)
  | unclassified (message : String)
deriving Repr, DecidableEq, Inhabited

/-- The `instanceof OrcidAPIError || instanceof OrcidNotFoundError ||
instanceof OrcidValidationError` test of the outer `catch`. -/
def isClassifiedOrcidError : OrcidError → Bool
  | .notFound _ => true
  | .apiError _ => true
  | .validationError _ => true
  | .unclassified _ => false

/-- The outer `try/catch` of `getOrcidProfile`: an already-typed error is
re-thrown unchanged; anything else is wrapped into
`OrcidAPIError("Failed to process author metadata")`. -/
def orcidBoundary {α : Type} (result : Except OrcidError α) :
    Except OrcidError α :=
  match result with
  | .ok v => .ok v
  | .error e =>
    .error (if isClassifiedOrcidError e then e
            else .apiError "Failed to process author metadata")

/-- `Promise.all` over the four sub-fetches: all must resolve; the first
rejection rejects the whole aggregate. -/
def promiseAll4 {ε α β γ δ : Type} (a : Except ε α) (b : Except ε β)
    (c : Except ε γ) (d : Except ε δ) : Except ε (α × β × γ × δ) :=
  match a, b, c, d with
  | .ok x, .ok y, .ok z, .ok w => .ok (x, y, z, w)
  | .error e, _, _, _ => .error e
  | _, .error e, _, _ => .error e
  | _, _, .error e, _ => .error e
  | _, _, _, .error e => .error e

/-- Body of the outer `try` of `getOrcidProfile`: join the four fetches,
reject falsy person data, then build the profile.  (The parse helpers are
total on validated data, so the inner `try/catch` that would produce an
`OrcidValidationError` has no remaining failure path.)  `personData` is
`Option OrcidProfile`: `none` models falsy person data
(`if (!personData) throw OrcidAPIError("No person data found")`). -/
def getOrcidProfileInner (orcidId : String)
    (personData : Except OrcidError (Option OrcidProfile))
    (worksData : Except OrcidError OrcidWorks)
    (educationData : Except OrcidError (List OrcidAffiliation))
    (employmentData : Except OrcidError (List OrcidAffiliation)) :
    Except OrcidError CustomerProfile :=
  match promiseAll4 personData worksData educationData employmentData with
  | .error e => .error e
  | .ok (person, works, educations, employments) =>
    match person with
    | none => .error (.apiError "No person data found")
    | some prof =>
      .ok (createCustomerProfile prof orcidId educations employments works)

/-- `getOrcidProfile` from the ORCID service: the aggregation body wrapped in
the classifying outer boundary. -/
def getOrcidProfile (orcidId : String)
    (personData : Except OrcidError (Option OrcidProfile))
    (worksData : Except OrcidError OrcidWorks)
    (educationData : Except OrcidError (List OrcidAffiliation))
    (employmentData : Except OrcidError (List OrcidAffiliation)) :
    Except OrcidError CustomerProfile :=
  orcidBoundary
    (getOrcidProfileInner orcidId personData worksData educationData
      employmentData)

/-! ### Europe PMC operation boundary (`getEpmcPublicationsByOrcid`) -/

inductive EpmcError where
  | apiError (message : String)
  | validationError (message : String)
  | unclassified (message : String)
deriving Repr, DecidableEq, Inhabited

/-- The `instanceof EpmcAPIError || instanceof EpmcValidationError` test. -/
def isClassifiedEpmcError : EpmcError → Bool
  | .apiError _ => true
  | .validationError _ => true
  | .unclassified _ => false

/-- The outer `try/catch` of `getEpmcPublicationsByOrcid`: typed errors are
re-thrown unchanged, anything else becomes
`EpmcAPIError("Failed to process publications")`. -/
def epmcBoundary (result : Except EpmcError (List PublicationRecord)) :
    Except EpmcError (List PublicationRecord) :=
  match result with
  | .ok v => .ok v
  | .error e =>
    .error (if isClassifiedEpmcError e then e
            else .apiError "Failed to process publications")

/-- `parsePublications`: a payload that fails `EpmcResponseSchema` validation
(`none` here) raises `EpmcValidationError`; a validated payload is
converted. -/
def parsePublications (data : Option EpmcResponse) :
    Except EpmcError (List PublicationRecord) :=
  match data with
  | some r => .ok (convertEpmcResponseToPublications r)
  | none => .error (.validationError "Failed to validate Europe PMC publication data")

/-- `getEpmcPublicationsByOrcid`: fetch (already classified by
`fetchEpmcData`), parse, and the classifying outer boundary. -/
def getEpmcPublicationsByOrcid
    (fetched : Except EpmcError (Option EpmcResponse)) :
    Except EpmcError (List PublicationRecord) :=
  epmcBoundary
    (match fetched with
     | .error e => .error e
     | .ok data => parsePublications data)

/-! ### MCP tool `get_publication_details` (server entry file) -/

inductive PublicationDetailResult where
  | outOfRange (index : Int) (found : Nat)
  | publication (record : Option PublicationRecord)
deriving Repr, DecidableEq, Inhabited

/-- Body of the `get_publication_details` tool on a successful fetch:
`if (publication_index >= publications.length)` return the out-of-range
error, otherwise serialize `publications[publication_index]` (which is
`undefined` — `none` — for a negative index). -/
def get_publication_details (publications : List PublicationRecord)
    (index : Int) : PublicationDetailResult :=
  if index ≥ (publications.length : Int) then
    .outOfRange index publications.length
  else
    .publication (jsIndex publications index)

/-! ### The zod schemas as structural validators (C5)

Direct transcriptions of the schema declarations in `epmc.ts` (lines 15-133)
and `nih.ts` (lines 16-106): each `z.object` becomes a `zObject` field list,
`.optional()` becomes `opt`, `.optional().nullable()` becomes `optNul`, and a
bare validator stays `req`. -/

def EpmcAuthorIdSchema : Json → Bool :=
  zObject [("type", opt Json.isStr), ("value", opt Json.isStr)]

def EpmcAuthorAffiliationSchema : Json → Bool :=
  zObject [("affiliation", opt Json.isStr)]

def EpmcAuthorSchema : Json → Bool :=
  zObject
    [("fullName", opt Json.isStr),
     ("lastName", opt Json.isStr),
     ("firstName", opt Json.isStr),
     ("initials", opt Json.isStr),
     ("authorId", opt EpmcAuthorIdSchema),
     ("collectiveName", opt Json.isStr),
     ("authorAffiliationDetailsList", opt (zObject
        [("authorAffiliation", opt (zArray EpmcAuthorAffiliationSchema))]))]

def EpmcJournalSchema : Json → Bool :=
  zObject
    [("title", opt Json.isStr),
     ("medlineAbbreviation", opt Json.isStr),
     ("nlmid", opt Json.isStr),
     ("isoabbreviation", opt Json.isStr),
     ("issn", opt Json.isStr),
     ("essn", opt Json.isStr)]

def EpmcJournalInfoSchema : Json → Bool :=
  zObject
    [("issue", opt Json.isStr),
     ("volume", opt Json.isStr),
     ("journalIssueId", opt Json.isNum),
     ("dateOfPublication", opt Json.isStr),
     ("monthOfPublication", opt Json.isNum),
     ("yearOfPublication", opt Json.isNum),
     ("printPublicationDate", opt Json.isStr),
     ("journal", opt EpmcJournalSchema)]

def EpmcGrantSchema : Json → Bool :=
  zObject
    [("grantId", opt Json.isStr),
     ("agency", opt Json.isStr),
     ("acronym", opt Json.isStr),
     ("orderIn", opt Json.isNum)]

def EpmcMeshQualifierSchema : Json → Bool :=
  zObject
    [("abbreviation", opt Json.isStr),
     ("qualifierName", opt Json.isStr),
     ("majorTopic_YN", opt Json.isStr)]

def EpmcMeshHeadingSchema : Json → Bool :=
  zObject
    [("majorTopic_YN", opt Json.isStr),
     ("descriptorName", opt Json.isStr),
     ("meshQualifierList", opt (zObject
        [("meshQualifier", opt (zArray EpmcMeshQualifierSchema))]))]

def EpmcFullTextUrlSchema : Json → Bool :=
  zObject
    [("availability", opt Json.isStr),
     ("availabilityCode", opt Json.isStr),
     ("documentStyle", opt Json.isStr),
     ("site", opt Json.isStr),
     ("url", opt Json.isStr)]

def EpmcResultSchema : Json → Bool :=
  zObject
    [("id", opt Json.isStr),
     ("source", opt Json.isStr),
     ("pmid", opt Json.isStr),
     ("pmcid", opt Json.isStr),
     ("doi", opt Json.isStr),
     ("title", opt Json.isStr),
     ("authorString", opt Json.isStr),
     ("authorList", opt (zObject
        [("author", opt (zArray EpmcAuthorSchema))])),
     ("authorIdList", opt (zObject
        [("authorId", opt (zArray EpmcAuthorIdSchema))])),
     ("journalInfo", opt EpmcJournalInfoSchema),
     ("pubYear", opt Json.isStr),
     ("pageInfo", opt Json.isStr),
     ("abstractText", opt Json.isStr),
     ("affiliation", opt Json.isStr),
     ("language", opt Json.isStr),
     ("pubTypeList", opt (zObject
        [("pubType", opt (zArray Json.isStr))])),
     ("keywordList", opt (zObject
        [("keyword", opt (zArray Json.isStr))])),
     ("grantsList", opt (zObject
        [("grant", opt (zArray EpmcGrantSchema))])),
     ("meshHeadingList", opt (zObject
        [("meshHeading", opt (zArray EpmcMeshHeadingSchema))])),
     ("fullTextUrlList", opt (zObject
        [("fullTextUrl", opt (zArray EpmcFullTextUrlSchema))])),
     ("isOpenAccess", opt Json.isStr),
     ("citedByCount", opt Json.isNum),
     ("hasReferences", opt Json.isStr),
     ("hasTextMinedTerms", opt Json.isStr),
     ("firstPublicationDate", opt Json.isStr)]

def EpmcResponseSchema : Json → Bool :=
  zObject
    [("version", opt Json.isStr),
     ("hitCount", opt Json.isNum),
     ("resultList", opt (zObject
        [("result", opt (zArray EpmcResultSchema))]))]

def NIHPrincipalInvestigatorSchema : Json → Bool :=
  zObject
    [("profile_id", opt Json.isNum),
     ("first_name", opt Json.isStr),
     ("middle_name", opt Json.isStr),
     ("last_name", opt Json.isStr),
     ("full_name", opt Json.isStr),
     ("title", opt Json.isStr),
     ("email", opt Json.isStr),
     ("phone", opt Json.isStr),
     ("is_contact_pi", opt Json.isBool)]

def NIHOrganizationSchema : Json → Bool :=
  zObject
    [("org_name", opt Json.isStr),
     ("org_city", opt Json.isStr),
     ("org_state", opt Json.isStr),
     ("org_country", opt Json.isStr),
     ("org_zipcode", opt Json.isStr),
     ("org_duns", opt (zUnion2 Json.isStr (zArray Json.isStr))),
     ("org_fips", opt Json.isStr),
     ("dept_type", optNul Json.isStr),
     ("org_department", opt Json.isStr)]

def NIHAgencySchema : Json → Bool :=
  zObject
    [("code", opt Json.isStr),
     ("name", opt Json.isStr),
     ("abbreviation", opt Json.isStr)]

def NIHProjectSchema : Json → Bool :=
  zObject
    [("appl_id", opt Json.isNum),
     ("project_num", req Json.isStr),
     ("project_serial_num", opt Json.isStr),
     ("project_title", opt Json.isStr),
     ("project_start_date", opt Json.isStr),
     ("project_end_date", opt Json.isStr),
     ("budget_start", opt Json.isStr),
     ("budget_end", opt Json.isStr),
     ("fiscal_year", opt Json.isNum),
     ("award_amount", optNul Json.isNum),
     ("award_notice_date", opt Json.isStr),
     ("is_active", opt Json.isBool),
     ("project_num_split", opt (zObject
        [("appl_type_code", opt Json.isStr),
         ("activity_code", opt Json.isStr),
         ("ic_code", opt Json.isStr),
         ("serial_num", opt Json.isStr),
         ("support_year", opt Json.isStr)])),
     ("principal_investigators",
        opt (zArray NIHPrincipalInvestigatorSchema)),
     ("contact_pi_name", opt Json.isStr),
     ("other_pi_names", opt (zArray Json.isStr)),
     ("organization", opt NIHOrganizationSchema),
     ("agency_ic_admin", opt NIHAgencySchema),
     ("agency_ic_fundings", optNul (zArray NIHAgencySchema)),
     ("cong_dist", opt Json.isStr),
     ("project_terms", opt Json.isStr),
     ("pref_terms", optNul Json.isStr),
     ("abstract_text", opt Json.isStr),
     ("phr_text", optNul Json.isStr),
     ("spending_cats", opt (zArray (zObject
        [("code", opt Json.isStr), ("name", opt Json.isStr)]))),
     ("covid_response", optNul (zArray Json.isStr)),
     ("arra_funded", opt Json.isStr),
     ("is_new", opt Json.isBool),
     ("mechanism_code_dc", opt Json.isStr),
     ("core_project_num", opt Json.isStr),
     ("full_study_section", opt (zObject
        [("srgCode", opt Json.isStr),
         ("srgFlex", opt Json.isStr),
         ("srgName", opt Json.isStr)])),
     ("subproject_id", optNul (zUnion2 Json.isNum Json.isStr)),
     ("total_cost", opt Json.isNum),
     ("total_cost_sub_project", opt Json.isNum)]

def NIHSearchResponseSchema : Json → Bool :=
  zObject
    [("meta", req (zObject
        [("search_id", opt Json.isStr),
         ("total", req Json.isNum),
         ("offset", req Json.isNum),
         ("limit", req Json.isNum),
         ("sort_field", optNul Json.isStr),
         ("sort_order", optNul Json.isStr)])),
     ("results", req (zArray NIHProjectSchema))]

/-! ### Helper lemmas -/

/-- A `filterMap` whose body is a guarded `some` is a `filter` followed by a
`map`. -/
theorem filterMap_guard {α β : Type} (p : α → Bool) (f : α → β) :
    ∀ l : List α,
      l.filterMap (fun a => if p a then some (f a) else none) =
        (l.filter p).map f
  | [] => rfl
  | a :: l => by
    by_cases h : p a <;>
      simp [List.filterMap_cons, List.filter_cons, h, filterMap_guard p f l]

/-- `convertEpmcResponseToPublications` keeps exactly the guarded entries. -/
theorem filterMap_convertEpmcResult (l : List EpmcResult) :
    l.filterMap convertEpmcResult =
      (l.filter (fun r => strTruthy r.title && strTruthy r.abstractText)).map
        mkEpmcPublication :=
  filterMap_guard _ _ l

/-! ### C1 -/

/-- A result entry with a present-but-empty title and a present abstract. -/
def c1Result : EpmcResult :=
  { (default : EpmcResult) with
    title := some "", abstractText := some "An abstract." }

def c1Response : EpmcResponse :=
  { version := none, hitCount := none,
    resultList := some { result := some [c1Result] } }

/-- C1 (counterexample): this entry has a non-absent title (`some ""`) and a
non-absent abstract, yet the normalizer emits no record for it — the guard is
JS truthiness, which also drops empty strings, so "emits exactly when both
are non-absent" is false as stated. -/
theorem claim_C1_cex :
    c1Result.title ≠ none ∧ c1Result.abstractText ≠ none ∧
    convertEpmcResponseToPublications c1Response = [] := by
  refine ⟨by decide, by decide, by decide⟩

/-- C1 (amended): the normalizer emits a `PublicationRecord` for an entry
exactly when the entry's title and abstract are both present and non-empty
(JS-truthy); entries whose title or abstract is missing or empty yield no
record, and each kept entry yields exactly one record, in order. -/
theorem claim_C1_thm (resp : EpmcResponse) :
    convertEpmcResponseToPublications resp =
      ((epmcResults resp).filter
        (fun r => strTruthy r.title && strTruthy r.abstractText)).map
        mkEpmcPublication := by
  unfold convertEpmcResponseToPublications epmcResults
  cases h : resp.resultList.bind EpmcResultList.result with
  | none => rfl
  | some results => simpa using filterMap_convertEpmcResult results

/-! ### C2 -/

/-- An emitted author whose identifier type is exactly `"ORCID"` but whose
identifier value is absent. -/
def c2Author : EpmcAuthor :=
  { (default : EpmcAuthor) with
    fullName := some "Doe J",
    authorId := some { type := some "ORCID", value := none } }

/-- A truthy optional string is not `none`. -/
theorem strTruthy_ne_none {o : Option String} (h : strTruthy o = true) :
    o ≠ none := by
  cases o
  · exact absurd h (by decide)
  · simp

/-- The `orcid` field of an emitted author, characterized from
`convertEpmcAuthor`. -/
theorem convertEpmcAuthor_orcid (a : EpmcAuthor) (au : Author)
    (h : convertEpmcAuthor a = some au) :
    au.orcid =
      if (a.authorId.bind EpmcAuthorId.type).map jsToUpperCase ==
          some "ORCID" && strTruthy (a.authorId.bind EpmcAuthorId.value) then
        a.authorId.bind EpmcAuthorId.value
      else none := by
  unfold convertEpmcAuthor at h
  by_cases hf : strTruthy a.fullName
  · rw [if_pos hf] at h
    simp only [Option.some.injEq] at h
    rw [← h]
  · rw [if_neg hf] at h
    exact absurd h (by simp)

/-- C2 (counterexample): the identifier's declared type matches `"ORCID"`
case-insensitively, the author is emitted, and yet its `orcid` field is not
populated (the code additionally requires a truthy identifier value). -/
theorem claim_C2_cex :
    (convertEpmcAuthor c2Author).isSome = true ∧
    (c2Author.authorId.bind EpmcAuthorId.type).map jsToUpperCase =
      some "ORCID" ∧
    (convertEpmcAuthor c2Author).bind Author.orcid = none := by
  refine ⟨by decide, by decide, by decide⟩

/-- C2 (amended): an emitted author's `orcid` field is populated iff the
identifier's declared type matches `"ORCID"` case-insensitively AND the
identifier's value is present and non-empty; when populated it carries that
value. -/
theorem claim_C2_thm (a : EpmcAuthor) (au : Author)
    (h : convertEpmcAuthor a = some au) :
    (au.orcid ≠ none ↔
      ((a.authorId.bind EpmcAuthorId.type).map jsToUpperCase = some "ORCID" ∧
        strTruthy (a.authorId.bind EpmcAuthorId.value) = true)) ∧
    (au.orcid ≠ none → au.orcid = a.authorId.bind EpmcAuthorId.value) := by
  have ho := convertEpmcAuthor_orcid a au h
  by_cases hc : (a.authorId.bind EpmcAuthorId.type).map jsToUpperCase =
      some "ORCID" ∧ strTruthy (a.authorId.bind EpmcAuthorId.value) = true
  · have hb : ((a.authorId.bind EpmcAuthorId.type).map jsToUpperCase ==
        some "ORCID" && strTruthy (a.authorId.bind EpmcAuthorId.value)) =
        true := by
      rw [Bool.and_eq_true, beq_iff_eq]
      exact ⟨hc.1, hc.2⟩
    rw [hb, if_pos rfl] at ho
    exact ⟨⟨fun _ => hc, fun _ => ho ▸ strTruthy_ne_none hc.2⟩, fun _ => ho⟩
  · have hb : ((a.authorId.bind EpmcAuthorId.type).map jsToUpperCase ==
        some "ORCID" && strTruthy (a.authorId.bind EpmcAuthorId.value)) =
        false := by
      rcases Bool.eq_false_or_eq_true
          ((a.authorId.bind EpmcAuthorId.type).map jsToUpperCase ==
            some "ORCID") with h1 | h1
      · rcases Bool.eq_false_or_eq_true
            (strTruthy (a.authorId.bind EpmcAuthorId.value)) with h2 | h2
        · exact absurd ⟨beq_iff_eq.mp h1, h2⟩ hc
        · rw [h2, Bool.and_false]
      · rw [h1, Bool.false_and]
    rw [hb] at ho
    simp only [Bool.false_eq_true, if_false] at ho
    exact ⟨⟨fun hne => absurd ho hne, fun hcc => absurd hcc hc⟩,
      fun hne => absurd ho hne⟩

/-- Author used in the C2 witness: lowercase identifier type, present value. -/
def c2AuthorW : EpmcAuthor :=
  { (default : EpmcAuthor) with
    fullName := some "Doe J",
    authorId := some { type := some "orcid", value := some "0000-0001" } }

/-- Emitted author for `c2AuthorW`. -/
def c2AuW : Author :=
  { fullName := some "Doe J", firstName := none, lastName := none,
    initials := none, orcid := some "0000-0001", affiliations := [] }

/-- C2 (witness): the amended theorem applied to a concrete emitted author. -/
theorem claim_C2_witness :
    (c2AuW.orcid ≠ none ↔
      ((c2AuthorW.authorId.bind EpmcAuthorId.type).map jsToUpperCase =
          some "ORCID" ∧
        strTruthy (c2AuthorW.authorId.bind EpmcAuthorId.value) = true)) ∧
    (c2AuW.orcid ≠ none →
      c2AuW.orcid = c2AuthorW.authorId.bind EpmcAuthorId.value) :=
  claim_C2_thm c2AuthorW c2AuW (by decide)

/-! ### C3 -/

/-- C3: if any of the four sub-fetches (person, works, educations,
employments) fails, `getOrcidProfile` fails with an error; no partial
`CustomerProfile` is ever returned. -/
theorem claim_C3_thm (orcidId : String)
    (personData : Except OrcidError (Option OrcidProfile))
    (worksData : Except OrcidError OrcidWorks)
    (educationData employmentData : Except OrcidError (List OrcidAffiliation))
    (h : (∃ e, personData = .error e) ∨ (∃ e, worksData = .error e) ∨
      (∃ e, educationData = .error e) ∨ (∃ e, employmentData = .error e)) :
    ∃ e, getOrcidProfile orcidId personData worksData educationData
      employmentData = .error e := by
  cases personData <;> cases worksData <;> cases educationData <;>
    cases employmentData <;>
    first
      | exact ⟨_, rfl⟩
      | simp at h

/-- Empty works value used by the C3 witness. -/
def c3Works : OrcidWorks := { works := [] }

/-- C3 (witness): a failing person sub-fetch fails the whole aggregate. -/
theorem claim_C3_witness :
    ∃ e, getOrcidProfile "0000-0002-1825-0097"
      (.error (OrcidError.notFound "The requested researcher profile could not be found. Please verify the ORCID ID is correct."))
      (.ok c3Works) (.ok []) (.ok []) = .error e :=
  claim_C3_thm _ _ _ _ _ (Or.inl ⟨_, rfl⟩)

/-! ### C7 -/

/-- C7: once classified, an error passes the outer adapter boundary
unchanged (both the Europe PMC and the ORCID adapters); only unclassified
exceptions are wrapped into the generic API (transport) error. -/
theorem claim_C7_thm :
    (∀ e : EpmcError, isClassifiedEpmcError e = true →
      epmcBoundary (.error e) = .error e) ∧
    (∀ e : OrcidError, isClassifiedOrcidError e = true →
      orcidBoundary (Except.error e : Except OrcidError CustomerProfile) =
        .error e) ∧
    (∀ m : String, epmcBoundary (.error (.unclassified m)) =
      .error (.apiError "Failed to process publications")) ∧
    (∀ m : String,
      orcidBoundary
        (Except.error (OrcidError.unclassified m) :
          Except OrcidError CustomerProfile) =
        .error (.apiError "Failed to process author metadata")) := by
  refine ⟨fun e h => ?_, fun e h => ?_, fun m => rfl, fun m => rfl⟩ <;>
    simp [epmcBoundary, orcidBoundary, h]

/-- C7 (witness): the boundary theorem at concrete classified errors. -/
theorem claim_C7_witness :
    epmcBoundary
      (.error (.validationError "Failed to validate Europe PMC publication data")) =
      .error (.validationError "Failed to validate Europe PMC publication data") ∧
    orcidBoundary
      (Except.error (OrcidError.notFound "nf") :
        Except OrcidError CustomerProfile) =
      .error (OrcidError.notFound "nf") :=
  ⟨claim_C7_thm.1 _ rfl, claim_C7_thm.2.1 _ rfl⟩

/-! ### C8 -/

/-- A publication record used as concrete list content. -/
def samplePublication : PublicationRecord :=
  { (default : PublicationRecord) with
    title := "A title", abstract := some "An abstract.",
    source := "Europe PMC" }

/-- C8 (counterexample): index `-1` is outside the valid positions of a
one-element publication list, yet the tool returns an (undefined)
publication value, not the out-of-range error — only the upper bound is
checked. -/
theorem claim_C8_cex :
    get_publication_details [samplePublication] (-1) =
      PublicationDetailResult.publication none := by decide

/-- C8 (amended): for every index at or beyond the list length the tool
returns the out-of-range error; for every index within `[0, length)` it
returns the publication at that index; a negative index is not range-checked
and yields an absent (undefined) publication instead of an error. -/
theorem claim_C8_thm (publications : List PublicationRecord) (index : Int) :
    (index ≥ (publications.length : Int) →
      get_publication_details publications index =
        .outOfRange index publications.length) ∧
    (0 ≤ index → index < (publications.length : Int) →
      get_publication_details publications index =
        .publication (publications[index.toNat]?) ∧
      (publications[index.toNat]?).isSome = true) ∧
    (index < 0 →
      get_publication_details publications index = .publication none) := by
  refine ⟨fun h => ?_, fun h0 hlt => ?_, fun hneg => ?_⟩
  · simp [get_publication_details, h]
  · have hnotge : ¬ index ≥ (publications.length : Int) := by omega
    have hnotneg : ¬ index < 0 := by omega
    have htn : index.toNat < publications.length := by omega
    refine ⟨by simp [get_publication_details, hnotge, jsIndex, hnotneg], ?_⟩
    rw [List.getElem?_eq_getElem htn]
    rfl
  · have hnotge : ¬ index ≥ (publications.length : Int) := by omega
    simp [get_publication_details, hnotge, jsIndex, hneg]

/-- C8 (witness): the amended theorem at a concrete in-range index. -/
theorem claim_C8_witness :
    get_publication_details [samplePublication] 0 =
      PublicationDetailResult.publication
        (([samplePublication] : List PublicationRecord)[(0 : Int).toNat]?) ∧
    (([samplePublication] : List PublicationRecord)[(0 : Int).toNat]?).isSome =
      true :=
  (claim_C8_thm [samplePublication] 0).2.1 (by decide) (by decide)

/-! ### C10 -/

/-- C10: when the structured `principal_investigators` field is present but
empty, the emitted grant's PI list is empty — the contact-PI-name fallback
applies only when the structured field is entirely absent (an empty JS array
is truthy). -/
theorem claim_C10_thm (project : NIHProject)
    (h : project.principal_investigators = some []) :
    (convertNIHProjectToGrantRecord project).principal_investigators = [] := by
  simp [convertNIHProjectToGrantRecord, nihPrincipalInvestigators, h]

/-- Project with a present-but-empty structured PI list and a usable
contact PI name. -/
def c10Project : NIHProject :=
  { (default : NIHProject) with
    project_num := "5R01AI000000-01",
    principal_investigators := some [],
    contact_pi_name := some "Smith, John" }

/-- C10 (witness): the theorem at a concrete project whose contact PI name
would otherwise produce a fallback entry. -/
theorem claim_C10_witness :
    (convertNIHProjectToGrantRecord c10Project).principal_investigators =
      [] :=
  claim_C10_thm c10Project rfl

/-! ### C5 -/

/-- C5 (counterexample): an NIH project payload missing only the
`project_num` field is rejected by the structural validator, and a search
response whose `meta` lacks the result-count `total` is rejected too — both
contradict "a payload missing any field still passes". -/
theorem claim_C5_cex :
    NIHProjectSchema (Json.obj [("project_title", Json.str "T")]) = false ∧
    NIHSearchResponseSchema (Json.obj
      [("meta", Json.obj [("offset", Json.num 0), ("limit", Json.num 10)]),
       ("results", Json.arr [])]) = false := by
  refine ⟨by decide, by decide⟩

/-- C5 (amended): every field of the Europe PMC response shapes is optional
(an empty object, and entries with no fields at all, pass), and every field
of the NIH shapes is optional or nullable EXCEPT the project's
`project_num` and the search response's `meta` (with required `total`,
`offset`, `limit`) and `results`, which are required; wrong-type values are
rejected, and declared-nullable fields accept `null`. -/
theorem claim_C5_thm :
    EpmcResponseSchema (Json.obj []) = true ∧
    EpmcResponseSchema (Json.obj
      [("resultList", Json.obj [("result", Json.arr [Json.obj []])])]) =
      true ∧
    (∀ s : String,
      NIHProjectSchema (Json.obj [("project_num", Json.str s)]) = true) ∧
    NIHProjectSchema (Json.obj []) = false ∧
    NIHProjectSchema (Json.obj
      [("project_num", Json.str "X"), ("project_title", Json.num 5)]) =
      false ∧
    NIHProjectSchema (Json.obj
      [("project_num", Json.str "X"), ("award_amount", Json.null)]) = true ∧
    NIHSearchResponseSchema (Json.obj
      [("meta", Json.obj
         [("total", Json.num 0), ("offset", Json.num 0),
          ("limit", Json.num 0)]),
       ("results", Json.arr [])]) = true := by
  refine ⟨by decide, by decide, fun s => rfl, by decide, by decide,
    by decide, by decide⟩

/-! ### C6 -/

/-- Sort rank induced by the email comparator: primary addresses rank below
(before) non-primary, and within equal primary status verified below
unverified. -/
def emailRank (e : OrcidEmail) : Nat :=
  (if e.primary then 0 else 2) + (if e.verified then 0 else 1)

/-- The comparator order coincides with the rank order. -/
theorem emailCmp_le_iff (a b : OrcidEmail) :
    emailCmp a b ≤ 0 ↔ emailRank a ≤ emailRank b := by
  rcases a with ⟨ae, av, ap⟩
  rcases b with ⟨be, bv, bp⟩
  cases av <;> cases ap <;> cases bv <;> cases bp <;>
    simp [emailCmp, emailRank]

instance : IsTotal OrcidEmail emailLe :=
  ⟨fun a b => by
    unfold emailLe
    rw [emailCmp_le_iff, emailCmp_le_iff]
    exact Nat.le_total _ _⟩

instance : IsTrans OrcidEmail emailLe :=
  ⟨fun a b c hab hbc => by
    unfold emailLe at hab hbc ⊢
    rw [emailCmp_le_iff] at hab hbc ⊢
    exact le_trans hab hbc⟩

/-- C6: the normalized email order is a stable sort by the comparator:
the output is a permutation of the input, pairwise ordered with
primary-flagged addresses before non-primary and (within equal primary
status) verified before unverified; ties on both criteria keep their
original relative order; the profile's email list is exactly this sorted
list; and the claim's concrete three-email example normalizes as stated. -/
theorem claim_C6_thm :
    (∀ l : List OrcidEmail, (sortEmails l).Perm l) ∧
    (∀ l : List OrcidEmail,
      (sortEmails l).Pairwise (fun a b => emailRank a ≤ emailRank b)) ∧
    (∀ (l : List OrcidEmail) (a b : OrcidEmail),
      List.Sublist [a, b] l → emailRank a = emailRank b →
      List.Sublist [a, b] (sortEmails l)) ∧
    (∀ (p : OrcidProfile) (oid : String)
      (ed em : List OrcidAffiliation) (w : OrcidWorks),
      (createCustomerProfile p oid ed em w).researcherId.emails =
        (sortEmails p.emails).map (fun e =>
          { address := e.email, primary := e.primary })) ∧
    sortEmails
        [{ email := "first", verified := true, primary := false },
         { email := "second", verified := false, primary := true },
         { email := "third", verified := false, primary := false }] =
      [{ email := "second", verified := false, primary := true },
       { email := "first", verified := true, primary := false },
       { email := "third", verified := false, primary := false }] := by
  refine ⟨fun l => List.perm_insertionSort emailLe l, fun l => ?_,
    fun l a b hsub hrank => ?_, fun p oid ed em w => rfl, by decide⟩
  · exact (List.sorted_insertionSort emailLe l).imp
      (fun hab => (emailCmp_le_iff _ _).mp hab)
  · exact List.pair_sublist_insertionSort
      ((emailCmp_le_iff _ _).mpr (le_of_eq hrank)) hsub

/-- C6 (witness): the stability clause at two concrete tied emails. -/
theorem claim_C6_witness :
    List.Sublist
      [({ email := "a", verified := true, primary := false } : OrcidEmail),
       { email := "b", verified := true, primary := false }]
      (sortEmails
        [{ email := "a", verified := true, primary := false },
         { email := "b", verified := true, primary := false }]) :=
  claim_C6_thm.2.2.1 _ _ _ (List.Sublist.refl _) rfl

/-! ### C9 -/

/-- The `if (title)` guard of the work-group loop fires exactly when some
summary carries a truthy title. -/
theorem strTruthy_find_title (l : List OrcidWorkSummary) :
    strTruthy ((l.find? (fun s => strTruthy s.title)).bind
      OrcidWorkSummary.title) = l.any (fun s => strTruthy s.title) := by
  induction l with
  | nil => rfl
  | cons s rest ih =>
    by_cases h : strTruthy s.title
    · simp [List.find?_cons, h]
    · simp [List.find?_cons, h, ih]

/-- The work-group loop keeps exactly the groups with a truthy title. -/
theorem filterMap_workGroupPublication (l : List OrcidWork) :
    l.filterMap workGroupPublication =
      (l.filter (fun g =>
        g.workSummaries.any (fun s => strTruthy s.title))).map
        workGroupEntry := by
  induction l with
  | nil => rfl
  | cons g rest ih =>
    by_cases h : g.workSummaries.any (fun s => strTruthy s.title)
    · simp [List.filterMap_cons, List.filter_cons, workGroupPublication,
        strTruthy_find_title, h, ih]
    · simp [List.filterMap_cons, List.filter_cons, workGroupPublication,
        strTruthy_find_title, h, ih]

/-- Works value with one group whose only summary has no title. -/
def c9Works : OrcidWorks :=
  { works :=
      [{ workSummaries :=
           [{ (default : OrcidWorkSummary) with source := some "Src" }],
         externalIds := [] }] }

/-- C9 (counterexample): this works response has exactly one work-group, but
the profile's publication list is empty — a group none of whose summaries
supplies a truthy title yields no entry, so "one entry per work-group" is
false as stated. -/
theorem claim_C9_cex :
    c9Works.works.length = 1 ∧
    (createCustomerProfile (default : OrcidProfile) "0000-0002-1825-0097"
      [] [] c9Works).publications = [] := by
  refine ⟨rfl, by decide⟩

/-- C9 (amended): the profile's publication list has one entry exactly for
each work-group with at least one summary whose title is present and
non-empty (other groups are dropped), and each emitted entry takes
title/date/journal from the first summary in source order supplying a
truthy value for that field, joins all truthy source labels with ", "
(no deduplication), and takes the DOI from the group external identifier
whose type equals "doi". -/
theorem claim_C9_thm (p : OrcidProfile) (oid : String)
    (ed em : List OrcidAffiliation) (w : OrcidWorks) :
    (createCustomerProfile p oid ed em w).publications =
      ((w.works.filter (fun g =>
        g.workSummaries.any (fun s => strTruthy s.title))).map
        workGroupEntry) := by
  show w.works.filterMap workGroupPublication = _
  exact filterMap_workGroupPublication w.works

/-! ### C4 -/

/-- A character-level split always produces at least one segment. -/
theorem splitChar_ne_nil (c : Char) (l : List Char) : splitChar c l ≠ [] := by
  induction l with
  | nil => simp [splitChar]
  | cons x xs ih =>
    simp only [splitChar]
    cases h : splitChar c xs with
    | nil => simp
    | cons r rs => by_cases hx : x = c <;> simp [hx]

/-- The first split segment is the prefix before the first separator. -/
theorem splitChar_head (c : Char) (l : List Char) :
    (splitChar c l).head? = some (l.takeWhile (fun x => x != c)) := by
  induction l with
  | nil => rfl
  | cons x xs ih =>
    simp only [splitChar]
    cases h : splitChar c xs with
    | nil => exact absurd h (splitChar_ne_nil c xs)
    | cons r rs =>
      rw [h] at ih
      by_cases hx : x = c
      · subst hx
        simp [List.takeWhile_cons]
      · simp only [List.head?_cons, Option.some.injEq] at ih
        simp [hx, List.takeWhile_cons, ih]

/-- The split has at least two segments exactly when the separator occurs. -/
theorem two_le_splitChar_length_iff (c : Char) (l : List Char) :
    2 ≤ (splitChar c l).length ↔ c ∈ l := by
  induction l with
  | nil => simp [splitChar]
  | cons x xs ih =>
    simp only [splitChar]
    cases h : splitChar c xs with
    | nil => exact absurd h (splitChar_ne_nil c xs)
    | cons r rs =>
      rw [h] at ih
      by_cases hx : x = c
      · subst hx
        simp [Nat.le_add_left]
      · dsimp only
        rw [if_neg hx]
        simp only [List.length_cons] at ih ⊢
        rw [List.mem_cons]
        constructor
        · intro hlen
          exact Or.inr (ih.mp hlen)
        · intro hmem
          rcases hmem with hcx | hmem
          · exact absurd hcx.symm hx
          · exact ih.mpr hmem

/-- The second split segment is the text strictly between the first
separator and the following separator (or end of string). -/
theorem splitChar_getElem_one (c : Char) (l : List Char) (h : c ∈ l) :
    (splitChar c l)[1]? =
      some (((l.dropWhile (fun x => x != c)).drop 1).takeWhile
        (fun x => x != c)) := by
  induction l with
  | nil => cases h
  | cons x xs ih =>
    simp only [splitChar]
    cases hs : splitChar c xs with
    | nil => exact absurd hs (splitChar_ne_nil c xs)
    | cons r rs =>
      by_cases hx : x = c
      · have hh := splitChar_head c xs
        rw [hs] at hh
        simp only [List.head?_cons, Option.some.injEq] at hh
        rw [hx]
        simp [List.dropWhile_cons, hh]
      · have hmem : c ∈ xs := by
          rcases List.mem_cons.mp h with h1 | h1
          · exact absurd h1.symm hx
          · exact h1
        have hi := ih hmem
        rw [hs] at hi
        simp only [List.getElem?_cons_succ] at hi
        simp [hx, List.dropWhile_cons, bne_iff_ne.mpr hx, hi]

/-- The contact-PI fallback, characterized positionally: with a comma, the
family name is the prefix before the first comma and the given name is the
segment between the first and second commas (both trimmed) — NOT everything
after the first comma; without a comma, the whole string is the family
name. -/
theorem contactPIEntries_eq (nm : String) :
    contactPIEntries nm =
      if ',' ∈ nm.data then
        [{ given_name := some (jsTrim (String.mk
             (((nm.data.dropWhile (fun x => x != ',')).drop 1).takeWhile
               (fun x => x != ',')))),
           family_name := some (jsTrim (String.mk
             (nm.data.takeWhile (fun x => x != ',')))),
           credit_name := some nm }]
      else
        [{ given_name := some "", family_name := some nm,
           credit_name := some nm }] := by
  have hlen : (jsSplitLimit nm ',' 2).length =
      min 2 (splitChar ',' nm.data).length := by
    unfold jsSplitLimit jsSplit
    rw [List.length_take, List.length_map]
  by_cases hmem : ',' ∈ nm.data
  · have h2 : 2 ≤ (splitChar ',' nm.data).length :=
      (two_le_splitChar_length_iff ',' nm.data).mpr hmem
    have hlen2 : (jsSplitLimit nm ',' 2).length = 2 := by omega
    have h0 : (jsSplitLimit nm ',' 2).getD 0 "" =
        String.mk (nm.data.takeWhile (fun x => x != ',')) := by
      have hh := splitChar_head ',' nm.data
      rw [List.head?_eq_getElem?] at hh
      unfold jsSplitLimit jsSplit
      rw [List.getD_eq_getElem?_getD, List.getElem?_take_of_lt (by omega),
        List.getElem?_map, hh]
      rfl
    have h1 : (jsSplitLimit nm ',' 2).getD 1 "" =
        String.mk (((nm.data.dropWhile (fun x => x != ',')).drop 1).takeWhile
          (fun x => x != ',')) := by
      have hh := splitChar_getElem_one ',' nm.data hmem
      unfold jsSplitLimit jsSplit
      rw [List.getD_eq_getElem?_getD, List.getElem?_take_of_lt (by omega),
        List.getElem?_map, hh]
      rfl
    rw [if_pos hmem]
    simp only [contactPIEntries]
    rw [if_pos hlen2, h0, h1]
  · have h2 : ¬ 2 ≤ (splitChar ',' nm.data).length := fun hh =>
      hmem ((two_le_splitChar_length_iff ',' nm.data).mp hh)
    have hne2 : (jsSplitLimit nm ',' 2).length ≠ 2 := by omega
    rw [if_neg hmem]
    simp only [contactPIEntries]
    rw [if_neg hne2]

/-- Project with no structured PI list and a contact PI name holding two
commas. -/
def c4Project : NIHProject :=
  { (default : NIHProject) with
    project_num := "5R01AI000001-01",
    contact_pi_name := some "Smith, John, Jr" }

/-- C4 (counterexample): on `"Smith, John, Jr"` the code produces the given
name `"John"` (the segment between the two commas; `split(',', 2)` discards
the rest), not `"John, Jr"` = everything after the first comma as the claim
states. -/
theorem claim_C4_cex :
    (convertNIHProjectToGrantRecord c4Project).principal_investigators =
      [{ given_name := some "John", family_name := some "Smith",
         credit_name := some "Smith, John, Jr" }] ∧
    some "John" ≠ some "John, Jr" := by
  refine ⟨by decide, by decide⟩

/-- C4 (amended): with no structured PI list and a truthy contact PI name:
if the name contains a comma, the single emitted PI takes the prefix before
the first comma (trimmed) as family name and the segment strictly between
the first and second commas (trimmed) — text after a second comma is
discarded — as given name, with the original string as credit name; with no
comma, the whole string becomes the family name and the given name is
empty. -/
theorem claim_C4_thm (project : NIHProject) (nm : String)
    (hpi : project.principal_investigators = none)
    (hc : project.contact_pi_name = some nm) (hne : nm ≠ "") :
    (convertNIHProjectToGrantRecord project).principal_investigators =
      if ',' ∈ nm.data then
        [{ given_name := some (jsTrim (String.mk
             (((nm.data.dropWhile (fun x => x != ',')).drop 1).takeWhile
               (fun x => x != ',')))),
           family_name := some (jsTrim (String.mk
             (nm.data.takeWhile (fun x => x != ',')))),
           credit_name := some nm }]
      else
        [{ given_name := some "", family_name := some nm,
           credit_name := some nm }] := by
  have hp : (convertNIHProjectToGrantRecord project).principal_investigators =
      nihPrincipalInvestigators project := rfl
  rw [hp]
  simp only [nihPrincipalInvestigators, hpi, hc]
  rw [if_pos (bne_iff_ne.mpr hne)]
  exact contactPIEntries_eq nm

/-- C4 (witness): the amended theorem at the concrete two-comma project. -/
theorem claim_C4_witness :
    (convertNIHProjectToGrantRecord c4Project).principal_investigators =
      if ',' ∈ "Smith, John, Jr".data then
        [{ given_name := some (jsTrim (String.mk
             ((("Smith, John, Jr".data.dropWhile (fun x => x != ',')).drop
               1).takeWhile (fun x => x != ',')))),
           family_name := some (jsTrim (String.mk
             ("Smith, John, Jr".data.takeWhile (fun x => x != ',')))),
           credit_name := some "Smith, John, Jr" }]
      else
        [{ given_name := some "", family_name := some "Smith, John, Jr",
           credit_name := some "Smith, John, Jr" }] :=
  claim_C4_thm c4Project "Smith, John, Jr" rfl rfl (by decide)

end RoseScout
